import Mathlib

/-
Shallow embedding of the powermon RAPL sampling engine (src/src/Rapl.cpp).

Machine integers are modelled as Nat with explicit masking: every counter
stored by Rapl::sample is masked with `& max_int` (max_int = 2^32 - 1), so
all snapshot fields are below 2^32.  The 64-bit accumulator additions in
Rapl::sample cannot wrap within any run short of 2^32 samples, so the
running totals are modelled as unbounded Nat.  Timestamps (struct timeval,
combined by Rapl::time_delta into a single real number) are modelled as
rationals.
-/

namespace Rapl

/-- The constant `~((uint32_t) 0)` used throughout Rapl.cpp, i.e. 2^32 - 1. -/
def max_int : Nat := 2 ^ 32 - 1

/-- Rollover-corrected energy delta, from Rapl::energy_delta (Rapl.cpp
lines 298-308): `eng_delta = after - before`, overwritten with
`after + (max_int - before)` when `before > after`.  Faithful to the
uint64 code for every `before ≤ max_int` (all call sites mask their
stored counters to 32 bits first). -/
def energy_delta (before after : Nat) : Nat :=
  if before > after then after + (max_int - before) else after - before

/-- The per-socket snapshot record `rapl_state_t` (declared in Rapl.h,
with fields pkg, pp0, pp1, dram, tsc exactly as used by Rapl.cpp). -/
structure rapl_state_t where
  pkg : Nat
  pp0 : Nat
  pp1 : Nat
  dram : Nat
  tsc : ℚ

/-- The raw values delivered by the MSR reads that one Rapl::sample call
performs, together with the gettimeofday timestamp taken in that call.
read_msr returns a uint64; sample masks each counter to 32 bits itself. -/
structure MsrReading where
  pkg : Nat
  pp0 : Nat
  pp1 : Nat
  dram : Nat
  tsc : ℚ

/-- The per-socket mutable state of the engine: the three rotating
snapshot slots and the running total (Rapl.h arrays prev_state,
current_state, next_state, running_total, at one socket index). -/
structure SocketState where
  prev_state : rapl_state_t
  current_state : rapl_state_t
  next_state : rapl_state_t
  running_total : rapl_state_t

/-- The write of the next snapshot in Rapl::sample (lines 251-271):
vendor 0 (Intel) reads pkg and pp0, then pp1 or dram according to
pp1_supported, forcing the other to zero; vendor 1 (AMD) reads only pkg
and forces the rest to zero; any other vendor value leaves the counters
of the next slot untouched.  gettimeofday then stamps the slot. -/
def next_snapshot (vendor : Nat) (pp1_supported : Bool) (r : MsrReading)
    (fallback : rapl_state_t) : rapl_state_t :=
  if vendor = 0 then
    if pp1_supported then
      { pkg := r.pkg % 2 ^ 32, pp0 := r.pp0 % 2 ^ 32, pp1 := r.pp1 % 2 ^ 32,
        dram := 0, tsc := r.tsc }
    else
      { pkg := r.pkg % 2 ^ 32, pp0 := r.pp0 % 2 ^ 32, pp1 := 0,
        dram := r.dram % 2 ^ 32, tsc := r.tsc }
  else if vendor = 1 then
    { pkg := r.pkg % 2 ^ 32, pp0 := 0, pp1 := 0, dram := 0, tsc := r.tsc }
  else
    { fallback with tsc := r.tsc }

/-- One Rapl::sample(socket) call (lines 250-285): fill the next slot,
add the deltas into the running total (note line 277: the pp1 total is
incremented by the pp0 delta), then rotate the three slots. -/
def sampleStep (vendor : Nat) (pp1_supported : Bool) (r : MsrReading)
    (s : SocketState) : SocketState :=
  let nxt := next_snapshot vendor pp1_supported r s.next_state
  let tot : rapl_state_t :=
    { pkg := s.running_total.pkg + energy_delta s.current_state.pkg nxt.pkg,
      pp0 := s.running_total.pp0 + energy_delta s.current_state.pp0 nxt.pp0,
      pp1 := s.running_total.pp1 + energy_delta s.current_state.pp0 nxt.pp0,
      dram := s.running_total.dram + energy_delta s.current_state.dram nxt.dram,
      tsc := s.running_total.tsc }
  { prev_state := s.current_state, current_state := nxt,
    next_state := s.prev_state, running_total := tot }

/-- A sequence of Rapl::sample(socket) calls on one socket. -/
def runSamples (vendor : Nat) (pp1_supported : Bool) (rs : List MsrReading)
    (s : SocketState) : SocketState :=
  rs.foldl (fun st r => sampleStep vendor pp1_supported r st) s

/-- The body of Rapl::reset (lines 120-135) for one socket: allocate
four fresh rapl_state_t records (their uninitialized contents are the
`garbage` parameter), sample twice, then set the pkg, pp0 and dram
fields of the running total to zero and stamp its tsc.  The pp1 field
of the running total is not assigned by reset. -/
def resetSocket (vendor : Nat) (pp1_supported : Bool) (garbage : SocketState)
    (r1 r2 : MsrReading) (t0 : ℚ) : SocketState :=
  let s2 := sampleStep vendor pp1_supported r2
    (sampleStep vendor pp1_supported r1 garbage)
  { s2 with running_total :=
      { pkg := 0, pp0 := 0, pp1 := s2.running_total.pp1, dram := 0, tsc := t0 } }

/-- C1: energy_delta returns after - before when after >= before, and
after + (2^32 - 1 - before) when after < before; energy_delta x x = 0
and energy_delta 0 (2^32 - 1) = 2^32 - 1. -/
theorem C1_energy_delta_formula (before after x : Nat)
    (hb : before < 2 ^ 32) (ha : after < 2 ^ 32) (hx : x < 2 ^ 32) :
    (before ≤ after → energy_delta before after = after - before) ∧
    (after < before →
      energy_delta before after = after + (2 ^ 32 - 1 - before)) ∧
    energy_delta x x = 0 ∧
    energy_delta 0 (2 ^ 32 - 1) = 2 ^ 32 - 1 := by
  simp only [energy_delta, max_int]
  refine ⟨?_, ?_, ?_, ?_⟩
  · intro h
    rw [if_neg (by omega)]
  · intro h
    rw [if_pos (by omega)]
  · rw [if_neg (by omega)]
    omega
  · rw [if_neg (by omega)]
    omega

/-- Witness for C1 at before = 5, after = 3, x = 7. -/
theorem C1_energy_delta_formula_witness :
    energy_delta 5 3 = 3 + (2 ^ 32 - 1 - 5) ∧ energy_delta 7 7 = 0 := by
  have h := C1_energy_delta_formula 5 3 7 (by norm_num) (by norm_num) (by norm_num)
  exact ⟨h.2.1 (by norm_num), h.2.2.1⟩

/-- C2 counterexample: at before = 1, after = 0 the code returns
2^32 - 2, while (after - before) mod 2^32 is 2^32 - 1, so the claimed
identity fails at this input. -/
theorem C2_energy_delta_not_mod :
    (energy_delta 1 0 : ℤ) = 2 ^ 32 - 2 ∧
    ((0 : ℤ) - 1) % 2 ^ 32 = 2 ^ 32 - 1 ∧
    (energy_delta 1 0 : ℤ) ≠ ((0 : ℤ) - 1) % 2 ^ 32 := by
  have h : energy_delta 1 0 = 2 ^ 32 - 2 := by
    simp only [energy_delta, max_int]
    rw [if_pos (by omega)]
    omega
  refine ⟨by rw [h]; norm_num, by decide, ?_⟩
  rw [h]
  decide

/-- C2 amended: energy_delta equals (after - before) mod 2^32 when
after >= before, and ((after - before) mod 2^32) - 1 when the counter
wrapped (after < before); the result always lies in [0, 2^32 - 1]. -/
theorem C2_energy_delta_mod_amended (before after : Nat)
    (hb : before < 2 ^ 32) (ha : after < 2 ^ 32) :
    (before ≤ after →
      (energy_delta before after : ℤ) = ((after : ℤ) - before) % 2 ^ 32) ∧
    (after < before →
      (energy_delta before after : ℤ) = ((after : ℤ) - before) % 2 ^ 32 - 1) ∧
    energy_delta before after ≤ 2 ^ 32 - 1 := by
  simp only [energy_delta, max_int]
  refine ⟨?_, ?_, ?_⟩
  · intro h
    rw [if_neg (by omega)]
    have : ((after : ℤ) - before) % 2 ^ 32 = (after : ℤ) - before := by omega
    rw [this]
    omega
  · intro h
    rw [if_pos (by omega)]
    have : ((after : ℤ) - before) % 2 ^ 32 = (after : ℤ) - before + 2 ^ 32 := by
      omega
    rw [this]
    push_cast
    omega
  · split <;> omega

/-- Witness for C2 amended at before = 1, after = 0. -/
theorem C2_energy_delta_mod_amended_witness :
    (energy_delta 1 0 : ℤ) = ((0 : ℤ) - 1) % 2 ^ 32 - 1 ∧
    energy_delta 1 0 ≤ 2 ^ 32 - 1 := by
  have h := C2_energy_delta_mod_amended 1 0 (by norm_num) (by norm_num)
  exact ⟨h.2.1 (by norm_num), h.2.2⟩

/-- An all-zero snapshot record, one concrete possible content of a
freshly allocated rapl_state_t. -/
def zeroState : rapl_state_t :=
  { pkg := 0, pp0 := 0, pp1 := 0, dram := 0, tsc := 0 }

/-- A socket whose four freshly allocated records are all zero. -/
def zeroSocket : SocketState :=
  { prev_state := zeroState, current_state := zeroState,
    next_state := zeroState, running_total := zeroState }

/-- Sum of the code's per-step deltas along a chain of successive
counter values starting from c. -/
def stepDeltas : Nat → List Nat → Nat
  | _, [] => 0
  | c, x :: xs => energy_delta c x + stepDeltas x xs

/-- Every sample call only adds to the running totals, so each total is
non-decreasing along any sequence of samples. -/
theorem running_total_mono (vendor : Nat) (pp1_supported : Bool)
    (rs : List MsrReading) (s : SocketState) :
    s.running_total.pkg ≤ (runSamples vendor pp1_supported rs s).running_total.pkg ∧
    s.running_total.pp0 ≤ (runSamples vendor pp1_supported rs s).running_total.pp0 ∧
    s.running_total.pp1 ≤ (runSamples vendor pp1_supported rs s).running_total.pp1 ∧
    s.running_total.dram ≤ (runSamples vendor pp1_supported rs s).running_total.dram := by
  induction rs generalizing s with
  | nil => exact ⟨le_refl _, le_refl _, le_refl _, le_refl _⟩
  | cons r rs ih =>
    have h := ih (sampleStep vendor pp1_supported r s)
    simp only [runSamples, List.foldl_cons] at h ⊢
    exact ⟨le_trans (Nat.le_add_right _ _) h.1,
           le_trans (Nat.le_add_right _ _) h.2.1,
           le_trans (Nat.le_add_right _ _) h.2.2.1,
           le_trans (Nat.le_add_right _ _) h.2.2.2⟩

/-- C3: reset zeroes the pkg, pp0 and dram running totals and stamps the
start timestamp, but never assigns the pp1 running total, which keeps
the increments accumulated by the two priming samples.  Evaluated here
with zero-filled fresh allocations and priming readings whose pp0
counter goes 0 to 5 to 7: after reset the pp1 total is 7, not 0. -/
theorem C3_reset_pp1_total_not_zero :
    (resetSocket 0 true zeroSocket
        { pkg := 3, pp0 := 5, pp1 := 7, dram := 0, tsc := 1 }
        { pkg := 4, pp0 := 7, pp1 := 9, dram := 0, tsc := 2 } 2).running_total.pkg = 0 ∧
    (resetSocket 0 true zeroSocket
        { pkg := 3, pp0 := 5, pp1 := 7, dram := 0, tsc := 1 }
        { pkg := 4, pp0 := 7, pp1 := 9, dram := 0, tsc := 2 } 2).running_total.pp0 = 0 ∧
    (resetSocket 0 true zeroSocket
        { pkg := 3, pp0 := 5, pp1 := 7, dram := 0, tsc := 1 }
        { pkg := 4, pp0 := 7, pp1 := 9, dram := 0, tsc := 2 } 2).running_total.dram = 0 ∧
    (resetSocket 0 true zeroSocket
        { pkg := 3, pp0 := 5, pp1 := 7, dram := 0, tsc := 1 }
        { pkg := 4, pp0 := 7, pp1 := 9, dram := 0, tsc := 2 } 2).running_total.tsc = 2 ∧
    (resetSocket 0 true zeroSocket
        { pkg := 3, pp0 := 5, pp1 := 7, dram := 0, tsc := 1 }
        { pkg := 4, pp0 := 7, pp1 := 9, dram := 0, tsc := 2 } 2).running_total.pp1 = 7 := by
  refine ⟨rfl, rfl, rfl, rfl, rfl⟩

/-- C4: in every sample call the pp1 running total is incremented by the
pp0 delta (Rapl.cpp line 277) while pkg, pp0 and dram totals get their
own domain's delta; at a concrete state the pp1 increment differs from
the pp1 domain's own delta. -/
theorem C4_pp1_total_incremented_by_pp0_delta (vendor : Nat)
    (pp1_supported : Bool) (r : MsrReading) (s : SocketState) :
    ((sampleStep vendor pp1_supported r s).running_total.pp1 =
      s.running_total.pp1 +
        energy_delta s.current_state.pp0
          (next_snapshot vendor pp1_supported r s.next_state).pp0) ∧
    ((sampleStep vendor pp1_supported r s).running_total.pkg =
      s.running_total.pkg +
        energy_delta s.current_state.pkg
          (next_snapshot vendor pp1_supported r s.next_state).pkg) ∧
    ((sampleStep vendor pp1_supported r s).running_total.pp0 =
      s.running_total.pp0 +
        energy_delta s.current_state.pp0
          (next_snapshot vendor pp1_supported r s.next_state).pp0) ∧
    ((sampleStep vendor pp1_supported r s).running_total.dram =
      s.running_total.dram +
        energy_delta s.current_state.dram
          (next_snapshot vendor pp1_supported r s.next_state).dram) ∧
    (sampleStep 0 true { pkg := 1, pp0 := 2, pp1 := 5, dram := 0, tsc := 1 }
        zeroSocket).running_total.pp1 ≠
      zeroSocket.running_total.pp1 +
        energy_delta zeroSocket.current_state.pp1
          (next_snapshot 0 true { pkg := 1, pp0 := 2, pp1 := 5, dram := 0, tsc := 1 }
            zeroSocket.next_state).pp1 := by
  refine ⟨rfl, rfl, rfl, rfl, by decide⟩

/-- Witness for C4 at a concrete vendor, reading and state. -/
theorem C4_pp1_total_incremented_by_pp0_delta_witness :
    (sampleStep 0 true { pkg := 1, pp0 := 2, pp1 := 5, dram := 0, tsc := 1 }
        zeroSocket).running_total.pp1 =
      zeroSocket.running_total.pp1 +
        energy_delta zeroSocket.current_state.pp0
          (next_snapshot 0 true { pkg := 1, pp0 := 2, pp1 := 5, dram := 0, tsc := 1 }
            zeroSocket.next_state).pp0 :=
  (C4_pp1_total_incremented_by_pp0_delta 0 true
    { pkg := 1, pp0 := 2, pp1 := 5, dram := 0, tsc := 1 } zeroSocket).1

/-- A primed socket whose current snapshot is pkg = 1, pp0 = 1, pp1 = 1,
dram = 0, with running totals all zero. -/
def primedSocket : SocketState :=
  { prev_state := zeroState,
    current_state := { pkg := 1, pp0 := 1, pp1 := 1, dram := 0, tsc := 0 },
    next_state := zeroState, running_total := zeroState }

/-- C7: running totals are monotonically non-decreasing over any sample
sequence, but at a concrete no-wrap strictly increasing step (pkg 1 to 2,
pp0 1 to 3, pp1 1 to 5) the pp1 running total gains the pp0 delta 2
instead of the sum 4 of its own per-step deltas, while pkg, pp0 and dram
totals do equal their own per-step delta sums. -/
theorem C7_running_total_mono_and_pp1_sum_mismatch :
    ((runSamples 0 true [{ pkg := 2, pp0 := 3, pp1 := 5, dram := 9, tsc := 1 }]
        primedSocket).running_total.pp1 = 2 ∧
     stepDeltas primedSocket.current_state.pp1
        [(next_snapshot 0 true { pkg := 2, pp0 := 3, pp1 := 5, dram := 9, tsc := 1 }
            primedSocket.next_state).pp1] = 4 ∧
     (runSamples 0 true [{ pkg := 2, pp0 := 3, pp1 := 5, dram := 9, tsc := 1 }]
        primedSocket).running_total.pp1 ≠
       primedSocket.running_total.pp1 +
         stepDeltas primedSocket.current_state.pp1
           [(next_snapshot 0 true { pkg := 2, pp0 := 3, pp1 := 5, dram := 9, tsc := 1 }
               primedSocket.next_state).pp1]) ∧
    ((runSamples 0 true [{ pkg := 2, pp0 := 3, pp1 := 5, dram := 9, tsc := 1 }]
        primedSocket).running_total.pkg =
       primedSocket.running_total.pkg +
         stepDeltas primedSocket.current_state.pkg
           [(next_snapshot 0 true { pkg := 2, pp0 := 3, pp1 := 5, dram := 9, tsc := 1 }
               primedSocket.next_state).pkg] ∧
     (runSamples 0 true [{ pkg := 2, pp0 := 3, pp1 := 5, dram := 9, tsc := 1 }]
        primedSocket).running_total.pp0 =
       primedSocket.running_total.pp0 +
         stepDeltas primedSocket.current_state.pp0
           [(next_snapshot 0 true { pkg := 2, pp0 := 3, pp1 := 5, dram := 9, tsc := 1 }
               primedSocket.next_state).pp0] ∧
     (runSamples 0 true [{ pkg := 2, pp0 := 3, pp1 := 5, dram := 9, tsc := 1 }]
        primedSocket).running_total.dram =
       primedSocket.running_total.dram +
         stepDeltas primedSocket.current_state.dram
           [(next_snapshot 0 true { pkg := 2, pp0 := 3, pp1 := 5, dram := 9, tsc := 1 }
               primedSocket.next_state).dram]) ∧
    (∀ (vendor : Nat) (pp1_supported : Bool) (rs : List MsrReading) (s : SocketState),
      s.running_total.pkg ≤ (runSamples vendor pp1_supported rs s).running_total.pkg ∧
      s.running_total.pp0 ≤ (runSamples vendor pp1_supported rs s).running_total.pp0 ∧
      s.running_total.pp1 ≤ (runSamples vendor pp1_supported rs s).running_total.pp1 ∧
      s.running_total.dram ≤ (runSamples vendor pp1_supported rs s).running_total.dram) := by
  refine ⟨⟨rfl, rfl, by decide⟩, ⟨rfl, rfl, rfl⟩, running_total_mono⟩

/-- Rapl::time_delta (lines 287-290) on the combined timestamps. -/
def time_delta (b e : ℚ) : ℚ := e - b

/-- Rapl::power (lines 292-296): zero when the elapsed time is zero
(the code tests both 0.0f and -0.0f, a single value here), otherwise
scaled energy over elapsed time. -/
def power (energy_units : ℚ) (before after : Nat) (t : ℚ) : ℚ :=
  if t = 0 then 0 else energy_units * (energy_delta before after : ℚ) / t

/-- Rapl::pkg_current_power (lines 310-318): sum over sockets. -/
def pkg_current_power (energy_units : ℚ) (socks : List SocketState) : ℚ :=
  socks.foldl (fun p sk => p +
    power energy_units sk.prev_state.pkg sk.current_state.pkg
      (time_delta sk.prev_state.tsc sk.current_state.tsc)) 0

/-- Rapl::pp0_current_power (lines 320-327). -/
def pp0_current_power (energy_units : ℚ) (socks : List SocketState) : ℚ :=
  socks.foldl (fun p sk => p +
    power energy_units sk.prev_state.pp0 sk.current_state.pp0
      (time_delta sk.prev_state.tsc sk.current_state.tsc)) 0

/-- The local sum p computed by Rapl::pp1_current_power (lines 329-335).
The C function computes this value but has no return statement, so the
value it actually returns is undefined. -/
def pp1_current_power_loop (energy_units : ℚ) (socks : List SocketState) : ℚ :=
  socks.foldl (fun p sk => p +
    power energy_units sk.prev_state.pp1 sk.current_state.pp1
      (time_delta sk.prev_state.tsc sk.current_state.tsc)) 0

/-- Rapl::dram_current_power (lines 337-344). -/
def dram_current_power (energy_units : ℚ) (socks : List SocketState) : ℚ :=
  socks.foldl (fun p sk => p +
    power energy_units sk.prev_state.dram sk.current_state.dram
      (time_delta sk.prev_state.tsc sk.current_state.tsc)) 0

/-- When every socket has equal previous and current timestamps, each
per-socket power contribution is zero, so the fold returns its
accumulator unchanged. -/
theorem foldl_power_zero_elapsed (energy_units : ℚ) (f g : SocketState → Nat)
    (socks : List SocketState) (acc : ℚ)
    (h : ∀ sk ∈ socks, sk.prev_state.tsc = sk.current_state.tsc) :
    socks.foldl (fun p sk => p +
      power energy_units (f sk) (g sk)
        (time_delta sk.prev_state.tsc sk.current_state.tsc)) acc = acc := by
  induction socks generalizing acc with
  | nil => rfl
  | cons sk socks ih =>
    have ht : time_delta sk.prev_state.tsc sk.current_state.tsc = 0 := by
      have := h sk (List.mem_cons_self ..)
      simp [time_delta, this]
    have hp : power energy_units (f sk) (g sk)
        (time_delta sk.prev_state.tsc sk.current_state.tsc) = 0 := by
      rw [ht]
      simp [power]
    simp only [List.foldl_cons, hp, add_zero]
    exact ih acc (fun x hx => h x (List.mem_cons_of_mem _ hx))

/-- C6: with zero elapsed time the per-socket power is exactly 0 and the
pkg, pp0 and dram instantaneous-power queries return exactly 0; the pp1
query's loop computes 0 as well, but the C function lacks a return
statement, so that value is not actually returned. -/
theorem C6_zero_elapsed_power_zero (energy_units : ℚ) (before after : Nat)
    (socks : List SocketState)
    (h : ∀ sk ∈ socks, sk.prev_state.tsc = sk.current_state.tsc) :
    power energy_units before after 0 = 0 ∧
    pkg_current_power energy_units socks = 0 ∧
    pp0_current_power energy_units socks = 0 ∧
    dram_current_power energy_units socks = 0 ∧
    pp1_current_power_loop energy_units socks = 0 := by
  refine ⟨by simp [power], ?_, ?_, ?_, ?_⟩
  · exact foldl_power_zero_elapsed energy_units
      (fun sk => sk.prev_state.pkg) (fun sk => sk.current_state.pkg) socks 0 h
  · exact foldl_power_zero_elapsed energy_units
      (fun sk => sk.prev_state.pp0) (fun sk => sk.current_state.pp0) socks 0 h
  · exact foldl_power_zero_elapsed energy_units
      (fun sk => sk.prev_state.dram) (fun sk => sk.current_state.dram) socks 0 h
  · exact foldl_power_zero_elapsed energy_units
      (fun sk => sk.prev_state.pp1) (fun sk => sk.current_state.pp1) socks 0 h

/-- Witness for C6 on one socket with equal timestamps. -/
theorem C6_zero_elapsed_power_zero_witness :
    power 1 3 5 0 = 0 ∧
    pkg_current_power 1 [zeroSocket] = 0 ∧
    pp0_current_power 1 [zeroSocket] = 0 ∧
    dram_current_power 1 [zeroSocket] = 0 ∧
    pp1_current_power_loop 1 [zeroSocket] = 0 :=
  C6_zero_elapsed_power_zero 1 3 5 [zeroSocket]
    (by intro sk hsk; rw [List.mem_singleton] at hsk; rw [hsk]; rfl)

/-- C string equality as decided by strcmp: walk both byte lists, stop
unequal at the first mismatch, stop equal at a shared NUL byte. -/
def cstreq : List Nat → List Nat → Bool
  | [], [] => true
  | [], _ :: _ => false
  | _ :: _, [] => false
  | a :: as, b :: bs => a == b && (a == 0 || cstreq as bs)

/-- The byte values of the 12-character vendor identification string
compared against in Rapl::get_vendor. -/
def amdVendorBytes : List Nat :=
  [65, 117, 116, 104, 101, 110, 116, 105, 99, 65, 77, 68]

/-- Rapl::get_vendor (lines 164-191): the 12 vendor bytes from the cpuid
query get a forced NUL terminator appended, then strcmp against the
literal; 1 (AMD) on exact match, 0 (INTEL) otherwise. -/
def get_vendor (v : List Nat) : Nat :=
  if cstreq (v ++ [0]) (amdVendorBytes ++ [0]) then 1 else 0

/-- strcmp equality against a NUL-free string of the same length is list
equality once both get their terminators appended. -/
theorem cstreq_append_iff : ∀ as bs : List Nat, as.length = bs.length →
    (∀ b ∈ bs, b ≠ 0) →
    (cstreq (as ++ [0]) (bs ++ [0]) = true ↔ as = bs) := by
  intro as
  induction as with
  | nil =>
    intro bs hlen _
    cases bs with
    | nil => simp [cstreq]
    | cons b bs => simp at hlen
  | cons a as ih =>
    intro bs hlen hbs
    cases bs with
    | nil => simp at hlen
    | cons b bs =>
      have hb0 : b ≠ 0 := hbs b (List.mem_cons_self ..)
      by_cases hab : a = b
      · subst hab
        have := ih bs (by simpa using hlen)
          (fun x hx => hbs x (List.mem_cons_of_mem _ hx))
        simp [cstreq, hb0, this]
      · simp [cstreq, hab]

/-- C8: get_vendor returns 1 (AMD) exactly on the 12-byte string
AuthenticAMD, returns 0 (INTEL) on every other 12-byte value, and has
no other outcome. -/
theorem C8_get_vendor_exact_match (v : List Nat) (h : v.length = 12) :
    (get_vendor v = 1 ↔ v = amdVendorBytes) ∧
    (v ≠ amdVendorBytes → get_vendor v = 0) ∧
    (get_vendor v = 0 ∨ get_vendor v = 1) := by
  have hiff := cstreq_append_iff v amdVendorBytes (by rw [h]; rfl) (by decide)
  unfold get_vendor
  by_cases hc : cstreq (v ++ [0]) (amdVendorBytes ++ [0]) = true
  · have hv := hiff.mp hc
    subst hv
    simp [hc]
  · have hv : v ≠ amdVendorBytes := fun he => hc (hiff.mpr he)
    simp [hc, hv]

/-- Witness for C8: the Intel vendor string maps to 0 and the AMD vendor
string maps to 1. -/
theorem C8_get_vendor_exact_match_witness :
    get_vendor [71, 101, 110, 117, 105, 110, 101, 73, 110, 116, 101, 108] = 0 ∧
    get_vendor amdVendorBytes = 1 :=
  ⟨(C8_get_vendor_exact_match
      [71, 101, 110, 117, 105, 110, 101, 73, 110, 116, 101, 108]
      (by decide)).2.1 (by decide),
   (C8_get_vendor_exact_match amdVendorBytes (by decide)).1.mpr rfl⟩

/-- Linux errno value for a missing device node minor (no such CPU). -/
def ENXIO : Nat := 6

/-- Linux errno value for an input or output error (no MSR support). -/
def EIO : Nat := 5

/-- Outcome of the open call on a register device path: a non-negative
descriptor, or a failure carrying errno. -/
inductive OpenResult where
  | ok : Nat → OpenResult
  | err : Nat → OpenResult

/-- Rapl::open_msr (lines 216-234): on failure terminate with code 2
when errno is ENXIO, 3 when errno is EIO, 127 otherwise; the error
value is the process termination code. -/
def open_msr (r : OpenResult) : Except Nat Nat :=
  match r with
  | .ok fd => .ok fd
  | .err e =>
    if e = ENXIO then .error 2
    else if e = EIO then .error 3
    else .error 127

/-- Rapl::read_msr (lines 236-243): a pread that does not return exactly
8 bytes terminates the process with code 127, otherwise the 8 bytes read
are the register value. -/
def read_msr (bytesRead : Int) (data : Nat) : Except Nat Nat :=
  if bytesRead ≠ 8 then .error 127 else .ok data

/-- C9: open_msr exits with code 2 on ENXIO (no such CPU), 3 on EIO (no
MSR support), 127 on any other errno, and read_msr exits with code 127
on any short read. -/
theorem C9_msr_failure_codes (e : Nat) (bytesRead : Int) (data : Nat)
    (he1 : e ≠ ENXIO) (he2 : e ≠ EIO) (hshort : bytesRead < 8) :
    open_msr (OpenResult.err ENXIO) = Except.error 2 ∧
    open_msr (OpenResult.err EIO) = Except.error 3 ∧
    open_msr (OpenResult.err e) = Except.error 127 ∧
    read_msr bytesRead data = Except.error 127 := by
  refine ⟨rfl, rfl, ?_, ?_⟩
  · simp [open_msr, he1, he2]
  · simp [read_msr]
    omega

/-- Witness for C9 at errno 13 (permission denied) and a 0-byte read. -/
theorem C9_msr_failure_codes_witness :
    open_msr (OpenResult.err 13) = Except.error 127 ∧
    read_msr 0 5 = Except.error 127 :=
  ⟨(C9_msr_failure_codes 13 0 5 (by decide) (by decide) (by decide)).2.2.1,
   (C9_msr_failure_codes 13 0 5 (by decide) (by decide) (by decide)).2.2.2⟩

/-- The C constant EXIT_FAILURE used by Rapl::get_n_sockets. -/
def EXIT_FAILURE : Nat := 1

/-- One comma-separated token of the online-CPUs line, either a single
CPU id or an inclusive id range `a-b`. -/
inductive CpuTok where
  | single : Nat → CpuTok
  | range : Nat → Nat → CpuTok

/-- Expansion of one token by the parsing loop of Rapl::get_n_sockets
(lines 432-446): a range token runs i from start to end inclusive, an
empty list when end is below start. -/
def expandTok : CpuTok → List Nat
  | .single n => [n]
  | .range a b => List.range' a (b + 1 - a)

/-- The full expanded ordered sequence of online CPU ids. -/
def expandToks (ts : List CpuTok) : List Nat :=
  ts.foldr (fun t acc => expandTok t ++ acc) []

/-- Result of socket discovery: the package ids marked seen, in first-
seen order (the C marks sockets[id] = 1 and counts the marks), and the
first_lcoreid array as a map from package id to the recorded value. -/
structure Topo where
  sockets : List Nat
  first_lcoreid : Nat → Option Nat

/-- The scan loop of Rapl::get_n_sockets (lines 455-479): for the cpu at
position i of the online list, read its package id (exit EXIT_FAILURE if
the per-CPU source is missing or unreadable); on first sight of a
package id record the loop index i — not the CPU id cpu[i] — into
first_lcoreid. -/
def scanCpus (pkgIdOf : Nat → Option Nat) :
    List Nat → Nat → Topo → Except Nat Topo
  | [], _, t => .ok t
  | c :: rest, i, t =>
    match pkgIdOf c with
    | none => .error EXIT_FAILURE
    | some id =>
      let t1 := if id ∈ t.sockets then t
        else { sockets := t.sockets ++ [id],
               first_lcoreid := fun j => if j = id then some i else t.first_lcoreid j }
      scanCpus pkgIdOf rest (i + 1) t1

/-- Rapl::get_n_sockets (lines 402-494): exit EXIT_FAILURE if the
online-CPUs source is missing or unreadable, otherwise expand its
tokens and scan each listed CPU; the socket count is the number of
distinct package ids marked, i.e. the length of Topo.sockets. -/
def get_n_sockets (onlineLine : Option (List CpuTok))
    (pkgIdOf : Nat → Option Nat) : Except Nat Topo :=
  match onlineLine with
  | none => .error EXIT_FAILURE
  | some toks =>
    scanCpus pkgIdOf (expandToks toks) 0
      { sockets := [], first_lcoreid := fun _ => none }

/-- C5: on the spec's example (online CPUs 0-3, CPUs 0 and 1 in package
0, CPUs 2 and 3 in package 1) discovery yields 2 sockets with recorded
cores 0 and 2; but in general the code records the position of the CPU
in the online list, not the CPU id: with online CPUs 4-5 both in
package 0, it records 0 where the first online CPU id of package 0
is 4. -/
theorem C5_first_lcoreid_is_list_index :
    ((get_n_sockets (some [CpuTok.range 0 3])
        (fun c => if c ≤ 1 then some 0 else some 1)).map
      (fun t => (t.sockets.length, t.first_lcoreid 0, t.first_lcoreid 1))
      = Except.ok (2, some 0, some 2)) ∧
    ((get_n_sockets (some [CpuTok.range 4 5]) (fun _ => some 0)).map
      (fun t => t.first_lcoreid 0) = Except.ok (some 0)) ∧
    expandToks [CpuTok.range 4 5] = [4, 5] ∧
    (some 0 : Option Nat) ≠ some 4 := by
  refine ⟨rfl, rfl, rfl, by decide⟩

/-- The scan loop exits with EXIT_FAILURE whenever any listed CPU's
package-id source is missing or unreadable. -/
theorem scanCpus_missing_source (pkgIdOf : Nat → Option Nat) :
    ∀ (l : List Nat) (i : Nat) (t : Topo), (∃ c ∈ l, pkgIdOf c = none) →
    scanCpus pkgIdOf l i t = Except.error EXIT_FAILURE := by
  intro l
  induction l with
  | nil => intro i t h; simp at h
  | cons c rest ih =>
    intro i t h
    rcases h with ⟨x, hx, hnone⟩
    rw [List.mem_cons] at hx
    rcases hx with hx | hx
    · subst hx
      simp [scanCpus, hnone]
    · unfold scanCpus
      cases hc : pkgIdOf c with
      | none => rfl
      | some id => exact ih _ _ ⟨x, hx, hnone⟩

/-- C10: a missing or unreadable online-CPUs source, and a missing or
unreadable package-id source for any online CPU, each terminate
get_n_sockets with EXIT_FAILURE = 1, a code distinct from the register
failure codes 2, 3 and 127. -/
theorem C10_topology_failure_exits_one (pkgIdOf pkgIdOf2 : Nat → Option Nat)
    (toks : List CpuTok) (c : Nat) (hc : c ∈ expandToks toks)
    (hmiss : pkgIdOf2 c = none) :
    get_n_sockets none pkgIdOf = Except.error EXIT_FAILURE ∧
    get_n_sockets (some toks) pkgIdOf2 = Except.error EXIT_FAILURE ∧
    EXIT_FAILURE = 1 ∧ EXIT_FAILURE ≠ 2 ∧ EXIT_FAILURE ≠ 3 ∧
    EXIT_FAILURE ≠ 127 := by
  refine ⟨rfl, ?_, rfl, by decide, by decide, by decide⟩
  exact scanCpus_missing_source pkgIdOf2 _ 0 _ ⟨c, hc, hmiss⟩

/-- Witness for C10 with online CPU 0 whose package-id source is
missing. -/
theorem C10_topology_failure_exits_one_witness :
    get_n_sockets none (fun _ => some 0) = Except.error EXIT_FAILURE ∧
    get_n_sockets (some [CpuTok.single 0]) (fun _ => none)
      = Except.error EXIT_FAILURE :=
  ⟨(C10_topology_failure_exits_one (fun _ => some 0) (fun _ => none)
      [CpuTok.single 0] 0 (by simp [expandToks, expandTok]) rfl).1,
   (C10_topology_failure_exits_one (fun _ => some 0) (fun _ => none)
      [CpuTok.single 0] 0 (by simp [expandToks, expandTok]) rfl).2.1⟩

end Rapl
